import Mathlib

/-!
Shallow embedding of the "Cosmic Symbiosis" application:
the gesture recognizer (src/components/Visuals.tsx, GestureHandler part),
the per-frame logic loop and state machine (App.tsx), the audio engine's
resonance mapping (src/services/audioService.ts) and the sensor cleanup.

Numbers are embedded as exact rationals.  The source computes Euclidean
3D distances with Math.sqrt and only ever *compares* distances with each
other or with the constant 0.08; since sqrt is strictly monotone on the
nonnegative reals, every such comparison is equivalent to the comparison
of squared distances, which is what the embedding uses so that all
definitions stay computable over ℚ.
-/

namespace CosmicSymbiosis

/-! ## Definitions -/

/-- The `AppState` enum from src/types.ts. -/
inductive AppState where
  | DISCONNECTED
  | AWAKENING
  | RESONANT
deriving DecidableEq, Repr

/-- The `GestureType` enum from src/types.ts. -/
inductive GestureType where
  | NONE
  | CLOSED_FIST
  | OPEN_PALM
  | POINTING
  | PINCH
deriving DecidableEq, Repr

/-- The `Landmark` interface from src/types.ts: a 3D hand keypoint. -/
structure Landmark where
  x : ℚ
  y : ℚ
  z : ℚ
deriving DecidableEq, Repr

/-- Squared 3D distance between two landmarks.  The source helper `dist`
in `recognizeGesture` returns `Math.sqrt(dx² + dy² + dz²)`; we embed the
square, and every comparison below is the (equivalent) squared form. -/
def distSq (p1 p2 : Landmark) : ℚ :=
  (p1.x - p2.x) * (p1.x - p2.x) + (p1.y - p2.y) * (p1.y - p2.y)
    + (p1.z - p2.z) * (p1.z - p2.z)

/-- The source helper `isCurled(tipIdx, pipIdx)`: a finger is curled if
its tip is closer (in 3D) to the wrist (landmark 0) than its PIP joint is. -/
def isCurled (lm : Fin 21 → Landmark) (tip pip : Fin 21) : Bool :=
  decide (distSq (lm tip) (lm 0) < distSq (lm pip) (lm 0))

/-- The four curl flags `[indexCurled, middleCurled, ringCurled, pinkyCurled]`
computed by `recognizeGesture` (tips 8, 12, 16, 20 against PIPs 6, 10, 14, 18). -/
def curledFlags (lm : Fin 21 → Landmark) : List Bool :=
  [isCurled lm 8 6, isCurled lm 12 10, isCurled lm 16 14, isCurled lm 20 18]

/-- The count `[...].filter(Boolean).length` in the source (`curledCount`). -/
def curledCount (lm : Fin 21 → Landmark) : Nat :=
  (curledFlags lm).count true

/-- Squared thumb-tip-to-index-tip gap (`pinchGap` in the source, squared). -/
def pinchGapSq (lm : Fin 21 → Landmark) : ℚ :=
  distSq (lm 4) (lm 8)

/-- The function `recognizeGesture` from src/components/Visuals.tsx (GestureHandler):
fist if all four non-thumb fingers are curled; else pinch if the
thumb-tip/index-tip distance is below 0.08 (squared: below 0.08²);
else pointing if exactly the index is extended; else open palm if no
finger is curled; else no gesture. -/
def recognizeGesture (lm : Fin 21 → Landmark) : GestureType :=
  if curledCount lm = 4 then GestureType.CLOSED_FIST
  else if pinchGapSq lm < 8 / 100 * (8 / 100) then GestureType.PINCH
  else if isCurled lm 8 6 = false ∧ isCurled lm 12 10 = true
       ∧ isCurled lm 16 14 = true ∧ isCurled lm 20 18 = true then GestureType.POINTING
  else if curledCount lm = 0 then GestureType.OPEN_PALM
  else GestureType.NONE

/-- A concrete fist: the four PIP joints sit away from the wrist, every
other landmark (tips included) sits at the wrist. -/
def fistHand : Fin 21 → Landmark := fun i =>
  if i.val = 6 ∨ i.val = 10 ∨ i.val = 14 ∨ i.val = 18 then ⟨1, 0, 0⟩ else ⟨0, 0, 0⟩

/-! ## App.tsx: global state and the per-frame logic loop

The React component state relevant to the claims: `appState`, `resonance`,
`awakenProgress`, `showIntro` (which gates the "Initiate Link" button: the
button is rendered only inside the `showIntro && ...` block) and
`cameraEnabled`.  Within one run of `loop()` every read of a state
variable sees the render snapshot (the closure values); the `setX`
updaters are applied to produce the next frame's state. -/

/-- The App component state read and written by the logic loop. -/
structure AppStateData where
  appState : AppState
  resonance : ℚ
  awakenProgress : ℚ
  showIntro : Bool
  cameraEnabled : Bool
deriving DecidableEq, Repr

/-- The `useState` initial values in App.tsx. -/
def initialState : AppStateData :=
  { appState := AppState.DISCONNECTED, resonance := 0, awakenProgress := 0,
    showIntro := true, cameraEnabled := false }

/-- The gesture-dependent resonance target of the loop: base 0.2, then the
chain of `if` statements for OPEN_PALM / PINCH / CLOSED_FIST / POINTING. -/
def targetResonance (g : GestureType) : ℚ :=
  let t : ℚ := 2 / 10
  let t := if g = GestureType.OPEN_PALM then 8 / 10 else t
  let t := if g = GestureType.PINCH then 5 / 10 else t
  let t := if g = GestureType.CLOSED_FIST then 1 / 10 else t
  let t := if g = GestureType.POINTING then 3 / 10 else t
  t

/-- Step 2 of `loop()` (Awakening Logic): while AWAKENING, progress grows
by 0.005; when `next >= 1` the state becomes RESONANT and progress is
capped at 1, otherwise progress becomes `next`. -/
def awakenUpdate (s : AppStateData) : AppStateData :=
  if s.appState = AppState.AWAKENING then
    let next := s.awakenProgress + 5 / 1000
    if 1 ≤ next then { s with appState := AppState.RESONANT, awakenProgress := 1 }
    else { s with awakenProgress := next }
  else s

/-- Step 3 of `loop()` (Resonance Logic): while the *snapshot* appState is
RESONANT, exponential smoothing of resonance towards the gesture target. -/
def resonanceUpdate (g : GestureType) (snapshot : AppState) (s : AppStateData) : AppStateData :=
  if snapshot = AppState.RESONANT then
    { s with resonance := s.resonance + (targetResonance g - s.resonance) * (5 / 100) }
  else s

/-- One frame of `loop()` in App.tsx: awakening logic, then resonance
logic, then the single `audioService.setResonance(...)` call, whose
argument — returned as the second component — is
`appState === RESONANT ? resonance : awakenProgress` on the snapshot. -/
def loopStep (g : GestureType) (s : AppStateData) : AppStateData × ℚ :=
  let s1 := awakenUpdate s
  let s2 := resonanceUpdate g s.appState s1
  let audioArg := if s.appState = AppState.RESONANT then s.resonance else s.awakenProgress
  (s2, audioArg)

/-- The handler `startExperience` in App.tsx: enables the camera, moves the state to
AWAKENING and hides the intro overlay. -/
def startExperience (s : AppStateData) : AppStateData :=
  { s with cameraEnabled := true, appState := AppState.AWAKENING, showIntro := false }

/-- The two kinds of externally triggered steps: an animation frame of the
logic loop (with the currently recognized gesture), and a click on the
"Initiate Link" button. -/
inductive Event where
  | frame (g : GestureType)
  | start
deriving DecidableEq, Repr

/-- Apply one event.  The "Initiate Link" button exists in the DOM only
while `showIntro` is true, so the start event is a no-op otherwise. -/
def applyEvent (e : Event) (s : AppStateData) : AppStateData :=
  match e with
  | Event.frame g => (loopStep g s).1
  | Event.start => if s.showIntro then startExperience s else s

/-- Run the app from the initial state through a list of events. -/
def run (es : List Event) : AppStateData :=
  es.foldl (fun s e => applyEvent e s) initialState

/-- Invariant maintained by every event: the intro overlay is only ever
shown in the DISCONNECTED state, and both scalars stay inside [0, 1]. -/
def Inv (s : AppStateData) : Prop :=
  (s.showIntro = true → s.appState = AppState.DISCONNECTED)
  ∧ 0 ≤ s.resonance ∧ s.resonance ≤ 1
  ∧ 0 ≤ s.awakenProgress ∧ s.awakenProgress ≤ 1

/-- Position of each state in the DISCONNECTED → AWAKENING → RESONANT order. -/
def rank : AppState → Nat
  | AppState.DISCONNECTED => 0
  | AppState.AWAKENING => 1
  | AppState.RESONANT => 2

/-- A sample RESONANT state (used to instantiate theorems). -/
def resonantSample : AppStateData :=
  { appState := AppState.RESONANT, resonance := 1 / 2, awakenProgress := 1,
    showIntro := false, cameraEnabled := true }

/-- A sample AWAKENING state (used to instantiate theorems). -/
def awakeningSample : AppStateData :=
  { appState := AppState.AWAKENING, resonance := 0, awakenProgress := 0,
    showIntro := false, cameraEnabled := true }

/-! ## src/services/audioService.ts: the AudioEngine

The engine's mutable data that `setResonance` reads and writes.
`initialized` models `this.ctx !== null` (after `init()` the tide gain,
tide filter and the seven chakra gains all exist, so the inner truthiness
guards of `setResonance` pass exactly when the engine is initialized).
Each `x.setTargetAtTime(v, now, τ)` call is modelled as setting the
parameter's target value to `v`. -/

/-- The AudioEngine state relevant to `setResonance`. -/
structure AudioEngine where
  initialized : Bool
  isMuted : Bool
  masterGainTarget : ℚ
  tideGainTarget : ℚ
  tideFilterFreqTarget : ℚ
  chakraGainTargets : Fin 7 → ℚ

/-- The clamp `Math.max(0, Math.min(1, level))` from `setResonance`. -/
def clamp01 (level : ℚ) : ℚ := max 0 (min 1 level)

/-- The body of the `chakraGains.forEach` loop of `setResonance`: with
`activeIndex = L * 7`, chakra `i` is retargeted to the swell volume
`0.12 * (1 - i * 0.1)` when `i <= activeIndex && L > 0.05`, else to 0. -/
def chakraTarget (L : ℚ) (i : Fin 7) : ℚ :=
  if (i.val : ℚ) ≤ L * 7 ∧ L > 5 / 100 then
    12 / 100 * (1 - (i.val : ℚ) * (1 / 10))
  else 0

/-- The method `setResonance(level)` from src/services/audioService.ts: bail out when
there is no AudioContext or the engine is muted; otherwise clamp the level
and retarget the tide gain (0.15 + 0.45·L), the tide lowpass frequency
(300 + 1200·L) and the seven chakra gains (see `chakraTarget`). -/
def AudioEngine.setResonance (e : AudioEngine) (level : ℚ) : AudioEngine :=
  if !e.initialized || e.isMuted then e
  else
    let clampedLevel := clamp01 level
    { e with
      tideGainTarget := 15 / 100 + clampedLevel * (45 / 100),
      tideFilterFreqTarget := 300 + clampedLevel * 1200,
      chakraGainTargets := fun i => chakraTarget clampedLevel i }

/-- A sample initialized, unmuted engine as produced by `init()`:
master gain 0.8, tide gain 0.15, tide filter at 300 Hz, chakras silent. -/
def engineSample : AudioEngine :=
  { initialized := true, isMuted := false, masterGainTarget := 8 / 10,
    tideGainTarget := 15 / 100, tideFilterFreqTarget := 300,
    chakraGainTargets := fun _ => 0 }

/-- A muted engine (after `toggleMute` flips `isMuted` to true). -/
def mutedEngine : AudioEngine :=
  { engineSample with isMuted := true }

/-! ## GestureHandler cleanup (src/components/Visuals.tsx)

The effect cleanup that runs when the sensor component unmounts or
`videoEnabled` flips: it calls `track.stop()` on every track of the
camera MediaStream held in `videoRef.current.srcObject` (when one was
acquired) and `cancelAnimationFrame` on the pending request id (when one
is pending). -/

/-- A camera MediaStream track; `stopped` records whether `stop()` ran. -/
structure MediaStreamTrack where
  stopped : Bool
deriving DecidableEq, Repr

/-- The call `track.stop()`. -/
def MediaStreamTrack.stop (t : MediaStreamTrack) : MediaStreamTrack :=
  { t with stopped := true }

/-- The sensor resources: the acquired camera stream, if any, and the
pending animation-frame request id, if any. -/
structure SensorState where
  stream : Option (List MediaStreamTrack)
  pendingFrame : Option Nat
deriving DecidableEq, Repr

/-- The GestureHandler effect cleanup: stop every track of the stream when
one is attached, then cancel the pending animation frame when one exists. -/
def cleanupSensor (s : SensorState) : SensorState :=
  let s1 := match s.stream with
    | some ts => { s with stream := some (ts.map MediaStreamTrack.stop) }
    | none => s
  match s1.pendingFrame with
  | some _ => { s1 with pendingFrame := none }
  | none => s1

/-- A sample sensor state with an acquired two-track stream and a pending
animation frame (used to instantiate theorems). -/
def sensorSample : SensorState :=
  { stream := some [{ stopped := false }, { stopped := false }], pendingFrame := some 7 }

/-! ## Helper lemmas -/

lemma targetResonance_bounds (g : GestureType) :
    1 / 10 ≤ targetResonance g ∧ targetResonance g ≤ 8 / 10 := by
  cases g <;> simp [targetResonance] <;> norm_num

lemma loopStep_disconnected (g : GestureType) (s : AppStateData)
    (h : s.appState = AppState.DISCONNECTED) : loopStep g s = (s, s.awakenProgress) := by
  simp [loopStep, awakenUpdate, resonanceUpdate, h]

lemma loopStep_awakening (g : GestureType) (s : AppStateData)
    (h : s.appState = AppState.AWAKENING) :
    loopStep g s =
      (if 1 ≤ s.awakenProgress + 5 / 1000 then
        { s with appState := AppState.RESONANT, awakenProgress := 1 }
      else { s with awakenProgress := s.awakenProgress + 5 / 1000 },
      s.awakenProgress) := by
  by_cases hnext : (1 : ℚ) ≤ s.awakenProgress + 5 / 1000 <;>
    simp [loopStep, awakenUpdate, resonanceUpdate, h, hnext]

lemma loopStep_resonant (g : GestureType) (s : AppStateData)
    (h : s.appState = AppState.RESONANT) :
    loopStep g s =
      ({ s with resonance := s.resonance + (targetResonance g - s.resonance) * (5 / 100) },
       s.resonance) := by
  simp [loopStep, awakenUpdate, resonanceUpdate, h]

lemma smoothing_between (r t : ℚ) :
    min r t ≤ r + (t - r) * (5 / 100) ∧ r + (t - r) * (5 / 100) ≤ max r t := by
  rcases le_total r t with hrt | hrt
  · rw [min_eq_left hrt, max_eq_right hrt]
    constructor <;> nlinarith
  · rw [min_eq_right hrt, max_eq_left hrt]
    constructor <;> nlinarith

lemma inv_step (e : Event) (s : AppStateData) (h : Inv s) : Inv (applyEvent e s) := by
  obtain ⟨hIntro, hr0, hr1, hp0, hp1⟩ := h
  cases e with
  | start =>
    by_cases hs : s.showIntro = true
    · rw [applyEvent, if_pos hs]
      exact ⟨fun hc => by simp [startExperience] at hc, hr0, hr1, hp0, hp1⟩
    · rw [applyEvent, if_neg hs]
      exact ⟨hIntro, hr0, hr1, hp0, hp1⟩
  | frame g =>
    obtain ⟨ht0, ht1⟩ := targetResonance_bounds g
    show Inv (loopStep g s).1
    cases hA : s.appState with
    | DISCONNECTED =>
      rw [loopStep_disconnected g s hA]
      exact ⟨hIntro, hr0, hr1, hp0, hp1⟩
    | AWAKENING =>
      have hsi : s.showIntro = false := by
        cases hb : s.showIntro with
        | false => rfl
        | true => exact absurd (hIntro hb) (by rw [hA]; intro hc; cases hc)
      rw [loopStep_awakening g s hA]
      by_cases hnext : (1 : ℚ) ≤ s.awakenProgress + 5 / 1000
      · rw [if_pos hnext]
        exact ⟨fun hc => (by rw [hsi] at hc; cases hc), hr0, hr1, by norm_num, le_refl 1⟩
      · rw [if_neg hnext]
        exact ⟨fun hc => (by rw [hsi] at hc; cases hc), hr0, hr1, by linarith, by linarith⟩
    | RESONANT =>
      have hsi : s.showIntro = false := by
        cases hb : s.showIntro with
        | false => rfl
        | true => exact absurd (hIntro hb) (by rw [hA]; intro hc; cases hc)
      rw [loopStep_resonant g s hA]
      obtain ⟨hlo, hhi⟩ := smoothing_between s.resonance (targetResonance g)
      refine ⟨fun hc => (by rw [hsi] at hc; cases hc), ?_, ?_, hp0, hp1⟩
      · have hm : (0 : ℚ) ≤ min s.resonance (targetResonance g) := le_min hr0 (by linarith)
        calc (0 : ℚ) ≤ min s.resonance (targetResonance g) := hm
          _ ≤ _ := hlo
      · have hm : max s.resonance (targetResonance g) ≤ 1 := max_le hr1 (by linarith)
        calc s.resonance + (targetResonance g - s.resonance) * (5 / 100)
            ≤ max s.resonance (targetResonance g) := hhi
          _ ≤ 1 := hm

lemma inv_run (es : List Event) : Inv (run es) := by
  have hgen : ∀ (l : List Event) (s : AppStateData), Inv s →
      Inv (l.foldl (fun t e => applyEvent e t) s) := by
    intro l
    induction l with
    | nil => intro s hs; exact hs
    | cons e tl ih =>
      intro s hs
      exact ih _ (inv_step e s hs)
  apply hgen
  constructor
  · intro _; rfl
  · norm_num [initialState]

lemma step_order (e : Event) (s : AppStateData) (hInv : Inv s) :
    rank s.appState ≤ rank (applyEvent e s).appState
    ∧ (s.appState = AppState.RESONANT → (applyEvent e s).appState = AppState.RESONANT)
    ∧ (s.appState ≠ (applyEvent e s).appState →
        (s.appState = AppState.DISCONNECTED
          ∧ (applyEvent e s).appState = AppState.AWAKENING ∧ e = Event.start)
        ∨ (s.appState = AppState.AWAKENING
          ∧ (applyEvent e s).appState = AppState.RESONANT)) := by
  cases e with
  | start =>
    by_cases hs : s.showIntro = true
    · have hD : s.appState = AppState.DISCONNECTED := hInv.1 hs
      have hE : (applyEvent Event.start s).appState = AppState.AWAKENING := by
        rw [applyEvent, if_pos hs]; rfl
      rw [hE, hD]
      exact ⟨by decide, fun hc => absurd hc (by decide),
        fun _ => Or.inl ⟨rfl, rfl, rfl⟩⟩
    · have hE : applyEvent Event.start s = s := by rw [applyEvent, if_neg hs]
      rw [hE]
      exact ⟨le_refl _, fun h => h, fun hne => absurd rfl hne⟩
  | frame g =>
    cases hA : s.appState with
    | DISCONNECTED =>
      have hE : (applyEvent (Event.frame g) s).appState = AppState.DISCONNECTED := by
        show ((loopStep g s).1).appState = _
        rw [loopStep_disconnected g s hA]
        exact hA
      rw [hE]
      exact ⟨le_refl _, fun h => h, fun hne => absurd rfl hne⟩
    | AWAKENING =>
      by_cases hnext : (1 : ℚ) ≤ s.awakenProgress + 5 / 1000
      · have hE : (applyEvent (Event.frame g) s).appState = AppState.RESONANT := by
          show ((loopStep g s).1).appState = _
          rw [loopStep_awakening g s hA, if_pos hnext]
        rw [hE]
        exact ⟨by decide, fun _ => rfl, fun _ => Or.inr ⟨rfl, rfl⟩⟩
      · have hE : (applyEvent (Event.frame g) s).appState = AppState.AWAKENING := by
          show ((loopStep g s).1).appState = _
          rw [loopStep_awakening g s hA, if_neg hnext]
          exact hA
        rw [hE]
        exact ⟨le_refl _, fun h => h, fun hne => absurd rfl hne⟩
    | RESONANT =>
      have hE : (applyEvent (Event.frame g) s).appState = AppState.RESONANT := by
        show ((loopStep g s).1).appState = _
        rw [loopStep_resonant g s hA]
        exact hA
      rw [hE]
      exact ⟨le_refl _, fun h => h, fun hne => absurd rfl hne⟩

lemma applyEvent_frame (g : GestureType) (s : AppStateData) :
    applyEvent (Event.frame g) s = (loopStep g s).1 := rfl

lemma run_cons (e : Event) (es : List Event) :
    run (e :: es) = es.foldl (fun t e2 => applyEvent e2 t) (applyEvent e initialState) := rfl

lemma run_start : applyEvent Event.start initialState
    = { appState := AppState.AWAKENING, resonance := 0, awakenProgress := 0,
        showIntro := false, cameraEnabled := true } := by
  simp [applyEvent, initialState, startExperience]

lemma runFrom_awakening (g : GestureType) (k : Nat) (s : AppStateData)
    (hA : s.appState = AppState.AWAKENING)
    (hk : s.awakenProgress + k * (5 / 1000) < 1) :
    ((List.replicate k (Event.frame g)).foldl (fun t e => applyEvent e t) s).appState
        = AppState.AWAKENING
    ∧ ((List.replicate k (Event.frame g)).foldl (fun t e => applyEvent e t) s).awakenProgress
        = s.awakenProgress + k * (5 / 1000) := by
  induction k generalizing s with
  | zero =>
    simp only [List.replicate, List.foldl_nil, Nat.cast_zero]
    exact ⟨hA, by ring⟩
  | succ n ih =>
    have hone : ¬ (1 : ℚ) ≤ s.awakenProgress + 5 / 1000 := by
      push_cast at hk
      push_neg
      nlinarith [Nat.cast_nonneg (α := ℚ) n]
    have hstep : applyEvent (Event.frame g) s
        = { s with awakenProgress := s.awakenProgress + 5 / 1000 } := by
      show (loopStep g s).1 = _
      rw [loopStep_awakening g s hA, if_neg hone]
    have hA2 : ({ s with awakenProgress := s.awakenProgress + 5 / 1000 } :
        AppStateData).appState = AppState.AWAKENING := hA
    have hk2 : ({ s with awakenProgress := s.awakenProgress + 5 / 1000 } :
        AppStateData).awakenProgress + n * (5 / 1000) < 1 := by
      show s.awakenProgress + 5 / 1000 + n * (5 / 1000) < 1
      push_cast at hk
      nlinarith
    obtain ⟨ha, hb⟩ :=
      ih { s with awakenProgress := s.awakenProgress + 5 / 1000 } hA2 hk2
    rw [List.replicate_succ, List.foldl_cons, hstep]
    refine ⟨ha, ?_⟩
    rw [hb]
    have hproj : ({ s with awakenProgress := s.awakenProgress + 5 / 1000 } :
        AppStateData).awakenProgress = s.awakenProgress + 5 / 1000 := rfl
    rw [hproj]
    push_cast
    ring

/-! ## Claim theorems -/

/-- C1: the recognizer only ever returns one of the five enum labels. -/
theorem recognizeGesture_range (lm : Fin 21 → Landmark) :
    recognizeGesture lm = GestureType.NONE ∨
    recognizeGesture lm = GestureType.CLOSED_FIST ∨
    recognizeGesture lm = GestureType.OPEN_PALM ∨
    recognizeGesture lm = GestureType.POINTING ∨
    recognizeGesture lm = GestureType.PINCH := by
  cases h : recognizeGesture lm <;> simp

/-- C10: classification priority.  If all four fingers are curled the result
is CLOSED_FIST no matter the thumb-to-index gap; if not all four are curled
and the (squared) gap is below 0.08², the result is PINCH. -/
theorem recognizeGesture_priority (lm : Fin 21 → Landmark) :
    (isCurled lm 8 6 = true → isCurled lm 12 10 = true →
      isCurled lm 16 14 = true → isCurled lm 20 18 = true →
      recognizeGesture lm = GestureType.CLOSED_FIST) ∧
    (¬(isCurled lm 8 6 = true ∧ isCurled lm 12 10 = true
        ∧ isCurled lm 16 14 = true ∧ isCurled lm 20 18 = true) →
      pinchGapSq lm < 8 / 100 * (8 / 100) →
      recognizeGesture lm = GestureType.PINCH) := by
  constructor
  · intro h1 h2 h3 h4
    simp [recognizeGesture, curledCount, curledFlags, h1, h2, h3, h4]
  · intro hnot hgap
    have hcount : curledCount lm ≠ 4 := by
      intro hc
      apply hnot
      unfold curledCount curledFlags at hc
      cases hb1 : isCurled lm 8 6 <;> cases hb2 : isCurled lm 12 10 <;>
        cases hb3 : isCurled lm 16 14 <;> cases hb4 : isCurled lm 20 18 <;>
        simp [hb1, hb2, hb3, hb4] at hc ⊢
    simp [recognizeGesture, hcount, hgap]

/-- Witness for C10 at a concrete hand: `fistHand` satisfies the curl
hypotheses and is classified CLOSED_FIST. -/
theorem recognizeGesture_priority_witness :
    isCurled fistHand 8 6 = true ∧ isCurled fistHand 12 10 = true ∧
    isCurled fistHand 16 14 = true ∧ isCurled fistHand 20 18 = true ∧
    recognizeGesture fistHand = GestureType.CLOSED_FIST := by
  have h0 : fistHand 0 = ⟨0, 0, 0⟩ := by decide
  have h6 : fistHand 6 = ⟨1, 0, 0⟩ := by decide
  have h10 : fistHand 10 = ⟨1, 0, 0⟩ := by decide
  have h14 : fistHand 14 = ⟨1, 0, 0⟩ := by decide
  have h18 : fistHand 18 = ⟨1, 0, 0⟩ := by decide
  have h8 : fistHand 8 = ⟨0, 0, 0⟩ := by decide
  have h12 : fistHand 12 = ⟨0, 0, 0⟩ := by decide
  have h16 : fistHand 16 = ⟨0, 0, 0⟩ := by decide
  have h20 : fistHand 20 = ⟨0, 0, 0⟩ := by decide
  have c1 : isCurled fistHand 8 6 = true := by simp [isCurled, distSq, h8, h6, h0]
  have c2 : isCurled fistHand 12 10 = true := by simp [isCurled, distSq, h12, h10, h0]
  have c3 : isCurled fistHand 16 14 = true := by simp [isCurled, distSq, h16, h14, h0]
  have c4 : isCurled fistHand 20 18 = true := by simp [isCurled, distSq, h20, h18, h0]
  exact ⟨c1, c2, c3, c4, (recognizeGesture_priority fistHand).1 c1 c2 c3 c4⟩

/-- C2: while the app state is RESONANT each frame applies
r + (t - r)·0.05 to the resonance, where the target t is 0.8 for
OPEN_PALM, 0.5 for PINCH, 0.1 for CLOSED_FIST, 0.3 for POINTING and
0.2 for NONE. -/
theorem resonant_smoothing (g : GestureType) (s : AppStateData)
    (h : s.appState = AppState.RESONANT) :
    ((loopStep g s).1).resonance
        = s.resonance + (targetResonance g - s.resonance) * (5 / 100)
    ∧ targetResonance GestureType.OPEN_PALM = 8 / 10
    ∧ targetResonance GestureType.PINCH = 5 / 10
    ∧ targetResonance GestureType.CLOSED_FIST = 1 / 10
    ∧ targetResonance GestureType.POINTING = 3 / 10
    ∧ targetResonance GestureType.NONE = 2 / 10 := by
  refine ⟨?_, rfl, rfl, rfl, rfl, rfl⟩
  rw [loopStep_resonant g s h]

/-- Witness for C2 at a concrete RESONANT state. -/
theorem resonant_smoothing_witness :
    resonantSample.appState = AppState.RESONANT
    ∧ ((loopStep GestureType.NONE resonantSample).1).resonance
        = resonantSample.resonance
          + (targetResonance GestureType.NONE - resonantSample.resonance) * (5 / 100) :=
  ⟨rfl, (resonant_smoothing GestureType.NONE resonantSample rfl).1⟩

/-- C3: starting from the initial DISCONNECTED state, every step preserves
the order DISCONNECTED → AWAKENING → RESONANT: rank never decreases,
RESONANT is absorbing, and the only state changes are
DISCONNECTED → AWAKENING on the start event and AWAKENING → RESONANT on a
frame that crosses the progress threshold. -/
theorem appState_order (es : List Event) (e : Event) :
    initialState.appState = AppState.DISCONNECTED
    ∧ rank (run es).appState ≤ rank (applyEvent e (run es)).appState
    ∧ ((run es).appState = AppState.RESONANT →
        (applyEvent e (run es)).appState = AppState.RESONANT)
    ∧ ((run es).appState ≠ (applyEvent e (run es)).appState →
        ((run es).appState = AppState.DISCONNECTED
          ∧ (applyEvent e (run es)).appState = AppState.AWAKENING ∧ e = Event.start)
        ∨ ((run es).appState = AppState.AWAKENING
          ∧ (applyEvent e (run es)).appState = AppState.RESONANT)) :=
  ⟨rfl, step_order e (run es) (inv_run es)⟩

/-- Witness for C3 along a concrete run. -/
theorem appState_order_witness :
    rank (run [Event.start]).appState
      ≤ rank (applyEvent (Event.frame GestureType.NONE) (run [Event.start])).appState :=
  (appState_order [Event.start] (Event.frame GestureType.NONE)).2.1

/-- C4: while AWAKENING, progress advances by exactly 0.005 per frame and
the state becomes RESONANT (with progress capped at 1) exactly on the
frame where progress + 0.005 reaches 1; on every run progress stays at
most 1; and from progress 0 the transition takes exactly 200 frames:
after the start click and 199 frames the app is still AWAKENING, after
the 200th frame it is RESONANT. -/
theorem awakening_progress (g : GestureType) (s : AppStateData)
    (h : s.appState = AppState.AWAKENING) :
    (s.awakenProgress + 5 / 1000 < 1 →
      ((loopStep g s).1).awakenProgress = s.awakenProgress + 5 / 1000
      ∧ ((loopStep g s).1).appState = AppState.AWAKENING)
    ∧ (1 ≤ s.awakenProgress + 5 / 1000 →
      ((loopStep g s).1).appState = AppState.RESONANT
      ∧ ((loopStep g s).1).awakenProgress = 1)
    ∧ (∀ es, (run es).awakenProgress ≤ 1)
    ∧ (run (Event.start :: List.replicate 199 (Event.frame g))).appState
        = AppState.AWAKENING
    ∧ (run (Event.start :: List.replicate 200 (Event.frame g))).appState
        = AppState.RESONANT := by
  have h199 := runFrom_awakening g 199 (applyEvent Event.start initialState)
    (by rw [run_start]) (by rw [run_start]; push_cast; norm_num)
  refine ⟨?_, ?_, ?_, ?_, ?_⟩
  · intro hlt
    rw [loopStep_awakening g s h, if_neg (not_le.mpr hlt)]
    exact ⟨rfl, h⟩
  · intro hge
    rw [loopStep_awakening g s h, if_pos hge]
    exact ⟨rfl, rfl⟩
  · exact fun es => (inv_run es).2.2.2.2
  · rw [run_cons]
    exact h199.1
  · have hsplit : List.replicate 200 (Event.frame g)
        = List.replicate 199 (Event.frame g) ++ [Event.frame g] :=
      List.replicate_succ' 199 (Event.frame g)
    rw [run_cons, hsplit, List.foldl_append, List.foldl_cons, List.foldl_nil]
    show (applyEvent (Event.frame g) (List.foldl (fun t e2 => applyEvent e2 t)
        (applyEvent Event.start initialState) (List.replicate 199 (Event.frame g)))).appState
        = AppState.RESONANT
    have hcross : (1 : ℚ) ≤ ((List.replicate 199 (Event.frame g)).foldl
        (fun t e2 => applyEvent e2 t)
        (applyEvent Event.start initialState)).awakenProgress + 5 / 1000 := by
      rw [h199.2, run_start]
      show (1 : ℚ) ≤ 0 + (199 : ℕ) * (5 / 1000) + 5 / 1000
      push_cast
      norm_num
    rw [applyEvent_frame, loopStep_awakening g _ h199.1, if_pos hcross]

/-- Witness for C4 at a concrete AWAKENING state. -/
theorem awakening_progress_witness :
    awakeningSample.appState = AppState.AWAKENING
    ∧ (run (Event.start :: List.replicate 200 (Event.frame GestureType.NONE))).appState
        = AppState.RESONANT :=
  ⟨rfl, (awakening_progress GestureType.NONE awakeningSample rfl).2.2.2.2⟩

/-- C5 counterexample: on the frame after awakening has begun the loop is
in AWAKENING with resonance 0 but passes the awakening progress 5/1000 to
`audioService.setResonance`, so the scalar the audio consumer receives is
not the shared resonance scalar in every state. -/
theorem audio_arg_counterexample :
    (run [Event.start, Event.frame GestureType.NONE]).appState = AppState.AWAKENING
    ∧ (run [Event.start, Event.frame GestureType.NONE]).resonance = 0
    ∧ (loopStep GestureType.NONE (run [Event.start, Event.frame GestureType.NONE])).2
        = 5 / 1000
    ∧ (5 : ℚ) / 1000 ≠ 0 := by
  have hstate : run [Event.start, Event.frame GestureType.NONE]
      = { appState := AppState.AWAKENING, resonance := 0, awakenProgress := 0 + 5 / 1000,
          showIntro := false, cameraEnabled := true } := by
    show applyEvent (Event.frame GestureType.NONE) (applyEvent Event.start initialState) = _
    rw [run_start]
    show (loopStep GestureType.NONE _).1 = _
    rw [loopStep_awakening _ _ rfl, if_neg (by norm_num)]
  refine ⟨?_, ?_, ?_, by norm_num⟩
  · rw [hstate]
  · rw [hstate]
  · rw [hstate, loopStep_awakening _ _ rfl]
    norm_num

/-- C5 amended: the loop hands the audio engine exactly one scalar per
frame; while RESONANT it is the resonance scalar, in the other states it
is the awakening progress. -/
theorem audio_arg_per_state (g : GestureType) (s : AppStateData) :
    (s.appState = AppState.RESONANT → (loopStep g s).2 = s.resonance)
    ∧ (s.appState ≠ AppState.RESONANT → (loopStep g s).2 = s.awakenProgress) := by
  constructor <;> intro h <;> simp [loopStep, h]

/-- Witness for the amended C5 at a concrete RESONANT state. -/
theorem audio_arg_per_state_witness :
    resonantSample.appState = AppState.RESONANT
    ∧ (loopStep GestureType.NONE resonantSample).2 = resonantSample.resonance :=
  ⟨rfl, (audio_arg_per_state GestureType.NONE resonantSample).1 rfl⟩

/-- C8: the resonance scalar starts at 0, is unchanged by frames outside
RESONANT, each RESONANT smoothing step stays between the previous value
and the gesture target, and on every run it stays inside [0, 1]. -/
theorem resonance_in_unit_interval :
    initialState.resonance = 0
    ∧ (∀ g s, s.appState ≠ AppState.RESONANT → ((loopStep g s).1).resonance = s.resonance)
    ∧ (∀ g s, s.appState = AppState.RESONANT →
        min s.resonance (targetResonance g) ≤ ((loopStep g s).1).resonance
        ∧ ((loopStep g s).1).resonance ≤ max s.resonance (targetResonance g))
    ∧ (∀ es, 0 ≤ (run es).resonance ∧ (run es).resonance ≤ 1) := by
  refine ⟨rfl, ?_, ?_, ?_⟩
  · intro g s hne
    cases hA : s.appState with
    | DISCONNECTED => rw [loopStep_disconnected g s hA]
    | AWAKENING =>
      rw [loopStep_awakening g s hA]
      by_cases hnext : (1 : ℚ) ≤ s.awakenProgress + 5 / 1000
      · rw [if_pos hnext]
      · rw [if_neg hnext]
    | RESONANT => exact absurd hA hne
  · intro g s hR
    rw [loopStep_resonant g s hR]
    exact smoothing_between s.resonance (targetResonance g)
  · intro es
    exact ⟨(inv_run es).2.1, (inv_run es).2.2.1⟩

/-- Witness for C8 at concrete inputs. -/
theorem resonance_in_unit_interval_witness :
    initialState.appState ≠ AppState.RESONANT
    ∧ ((loopStep GestureType.NONE initialState).1).resonance = initialState.resonance
    ∧ (0 ≤ (run []).resonance ∧ (run []).resonance ≤ 1) :=
  ⟨by decide, resonance_in_unit_interval.2.1 GestureType.NONE initialState (by decide),
    resonance_in_unit_interval.2.2.2 []⟩

lemma clamp01_nonneg (level : ℚ) : 0 ≤ clamp01 level := le_max_left 0 _

lemma clamp01_le_one (level : ℚ) : clamp01 level ≤ 1 :=
  max_le (by norm_num) (min_le_left 1 level)

lemma clamp01_idem (level : ℚ) : clamp01 (clamp01 level) = clamp01 level := by
  unfold clamp01
  rw [min_eq_right (max_le (by norm_num) (min_le_left 1 level)), ← max_assoc, max_self]

lemma chakraTarget_spec (L : ℚ) (i : Fin 7) :
    (chakraTarget L i ≠ 0 ↔ ((i.val : ℚ) ≤ 7 * L ∧ L > 5 / 100))
    ∧ (((i.val : ℚ) ≤ 7 * L ∧ L > 5 / 100) →
        chakraTarget L i = 12 / 100 * (1 - (i.val : ℚ) * (1 / 10)))
    ∧ (¬((i.val : ℚ) ≤ 7 * L ∧ L > 5 / 100) → chakraTarget L i = 0) := by
  have hle : (i.val : ℚ) ≤ 6 := by
    have hlt := i.isLt
    exact_mod_cast Nat.le_of_lt_succ hlt
  have hpos : (0 : ℚ) < 12 / 100 * (1 - (i.val : ℚ) * (1 / 10)) := by nlinarith
  unfold chakraTarget
  rw [mul_comm L 7]
  by_cases hcond : (i.val : ℚ) ≤ 7 * L ∧ L > 5 / 100
  · rw [if_pos hcond]
    exact ⟨⟨fun _ => hcond, fun _ => hpos.ne.symm⟩, fun _ => rfl, fun hn => absurd hcond hn⟩
  · rw [if_neg hcond]
    exact ⟨⟨fun hne => absurd rfl hne, fun hc => absurd hc hcond⟩,
      fun hc => absurd hc hcond, fun _ => rfl⟩

lemma setResonance_active (e : AudioEngine) (level : ℚ)
    (hinit : e.initialized = true) (hmute : e.isMuted = false) :
    e.setResonance level = { e with
      tideGainTarget := 15 / 100 + clamp01 level * (45 / 100),
      tideFilterFreqTarget := 300 + clamp01 level * 1200,
      chakraGainTargets := fun i => chakraTarget (clamp01 level) i } := by
  unfold AudioEngine.setResonance
  rw [hinit, hmute]
  rfl

/-- C6: on an initialized, unmuted engine, `setResonance(level)` with
L the level clamped to [0, 1] sets the tide gain target to 0.15 + 0.45·L,
the tide lowpass frequency target to 300 + 1200·L, and the chakra gain
target of index i to the nonzero value 0.12·(1 − 0.1·i) exactly when
i ≤ 7·L and L > 0.05, and to 0 otherwise. -/
theorem setResonance_targets (e : AudioEngine) (level : ℚ)
    (hinit : e.initialized = true) (hmute : e.isMuted = false) :
    (e.setResonance level).tideGainTarget = 15 / 100 + clamp01 level * (45 / 100)
    ∧ (e.setResonance level).tideFilterFreqTarget = 300 + clamp01 level * 1200
    ∧ (∀ i : Fin 7,
        ((e.setResonance level).chakraGainTargets i ≠ 0
          ↔ ((i.val : ℚ) ≤ 7 * clamp01 level ∧ clamp01 level > 5 / 100))
        ∧ (((i.val : ℚ) ≤ 7 * clamp01 level ∧ clamp01 level > 5 / 100) →
            (e.setResonance level).chakraGainTargets i
              = 12 / 100 * (1 - (i.val : ℚ) * (1 / 10)))
        ∧ (¬((i.val : ℚ) ≤ 7 * clamp01 level ∧ clamp01 level > 5 / 100) →
            (e.setResonance level).chakraGainTargets i = 0)) := by
  rw [setResonance_active e level hinit hmute]
  exact ⟨rfl, rfl, fun i => chakraTarget_spec (clamp01 level) i⟩

/-- Witness for C6 at a concrete engine and level. -/
theorem setResonance_targets_witness :
    engineSample.initialized = true ∧ engineSample.isMuted = false
    ∧ (engineSample.setResonance (1 / 2)).tideGainTarget
        = 15 / 100 + clamp01 (1 / 2) * (45 / 100) :=
  ⟨rfl, rfl, (setResonance_targets engineSample (1 / 2) rfl rfl).1⟩

/-- C9: `setResonance` is total and safe at its interface: on an
uninitialized engine or a muted engine it returns with every parameter
unchanged, and it uses the level clamped to [0, 1] — calling it with any
level is the same as calling it with the clamped level, and the clamped
level always lies in [0, 1]. -/
theorem setResonance_safe :
    (∀ e level, e.initialized = false → AudioEngine.setResonance e level = e)
    ∧ (∀ e level, e.isMuted = true → AudioEngine.setResonance e level = e)
    ∧ (∀ e level, AudioEngine.setResonance e level
        = AudioEngine.setResonance e (clamp01 level))
    ∧ (∀ level, 0 ≤ clamp01 level ∧ clamp01 level ≤ 1) := by
  refine ⟨?_, ?_, ?_, fun level => ⟨clamp01_nonneg level, clamp01_le_one level⟩⟩
  · intro e level h
    unfold AudioEngine.setResonance
    rw [h]
    rfl
  · intro e level h
    unfold AudioEngine.setResonance
    rw [h]
    simp
  · intro e level
    cases hinit : e.initialized with
    | false =>
      unfold AudioEngine.setResonance
      rw [hinit]
      rfl
    | true =>
      cases hmute : e.isMuted with
      | true =>
        unfold AudioEngine.setResonance
        rw [hinit, hmute]
        rfl
      | false =>
        rw [setResonance_active e level hinit hmute,
          setResonance_active e (clamp01 level) hinit hmute, clamp01_idem]

/-- Witness for C9 at a concrete muted engine and out-of-range level. -/
theorem setResonance_safe_witness :
    mutedEngine.isMuted = true
    ∧ AudioEngine.setResonance mutedEngine (3 / 2) = mutedEngine :=
  ⟨rfl, setResonance_safe.2.1 mutedEngine (3 / 2) rfl⟩

/-- C7: the GestureHandler cleanup cancels the pending animation frame
(none is left pending), and when a camera stream was acquired it replaces
it by the same tracks with `stop()` applied, every one of which is
stopped. -/
theorem cleanup_releases (s : SensorState) :
    (cleanupSensor s).pendingFrame = none
    ∧ (∀ ts, s.stream = some ts →
        (cleanupSensor s).stream = some (ts.map MediaStreamTrack.stop))
    ∧ (∀ ts (t : MediaStreamTrack), t ∈ List.map MediaStreamTrack.stop ts →
        t.stopped = true) := by
  refine ⟨?_, ?_, ?_⟩
  · cases hs : s.stream <;> cases hp : s.pendingFrame <;>
      simp [cleanupSensor, hs, hp]
  · intro ts hts
    cases hp : s.pendingFrame <;> simp [cleanupSensor, hts, hp]
  · intro ts t ht
    rw [List.mem_map] at ht
    obtain ⟨u, hu, hut⟩ := ht
    rw [← hut]
    rfl

/-- Witness for C7 at a concrete sensor state. -/
theorem cleanup_releases_witness :
    sensorSample.stream = some [{ stopped := false }, { stopped := false }]
    ∧ (cleanupSensor sensorSample).stream
        = some (List.map MediaStreamTrack.stop
            [{ stopped := false }, { stopped := false }])
    ∧ (cleanupSensor sensorSample).pendingFrame = none :=
  ⟨rfl, (cleanup_releases sensorSample).2.1 _ rfl, (cleanup_releases sensorSample).1⟩

end CosmicSymbiosis
